import Mathlib

/-!
Shallow embedding of `sqlite-docstore` (src/index.js): a Mongo-style document
store compiled to SQLite statements over a two-column table
(`_id TEXT PRIMARY KEY`, `document JSON`).  JavaScript objects are modelled as
association lists in key order, JSON numbers as integers, and the storage
engine (better-sqlite3 / SQLite) at the granularity the operations observe:
prepare-time failures (missing table, malformed statement text), bind-time
failures (non-bindable JavaScript values), the primary-key uniqueness check,
and `db.transaction`'s rollback-on-throw.  SQL statement text is reproduced
literally where an operation splices identifiers into it.
-/

namespace SqliteDocstore

/-- A JSON-representable JavaScript value (numbers restricted to integers;
none of the verified claims depends on float behaviour). -/
inductive JsValue where
  | vNull : JsValue
  | vBool : Bool → JsValue
  | vNum : Int → JsValue
  | vStr : String → JsValue
  | vArr : List JsValue → JsValue
  | vObj : List (String × JsValue) → JsValue

/-- A JavaScript object / parsed JSON document: fields in key order. -/
abbrev Doc := List (String × JsValue)

/-- JavaScript property access `obj[key]` (object keys are unique in JS). -/
def docGet : Doc → String → Option JsValue
  | [], _ => none
  | (k, v) :: rest, key => if k = key then some v else docGet rest key

/-- Overwrite-or-append semantics of both the spread `{ ...doc, k: v }` and
SQLite `json_set` at a top-level key: an existing key keeps its position. -/
def objSet : Doc → String → JsValue → Doc
  | [], k, v => [(k, v)]
  | (k1, v1) :: rest, k, v =>
      if k1 = k then (k, v) :: rest else (k1, v1) :: objSet rest k v

/-- Segments of a dotted field path, as in the SQLite JSON path `$.a.b`
(`split` on a single dot; the empty string yields one empty segment). -/
def segsOf : List Char → List String
  | [] => [""]
  | c :: rest =>
      if c = '.' then "" :: segsOf rest
      else
        match segsOf rest with
        | s :: ss => String.mk (c :: s.data) :: ss
        | [] => [String.mk [c]]

def pathSegs (s : String) : List String := segsOf s.toList

/-- SQLite `json_extract(value, path)` along already-split segments.
Descending into a missing key or a non-object yields SQL NULL (`none`). -/
def jsonExtractVal : List String → JsValue → Option JsValue
  | [], v => some v
  | k :: rest, .vObj fs =>
      match docGet fs k with
      | some sub => jsonExtractVal rest sub
      | none => none
  | _ :: _, _ => none

/-- `json_extract(document, '$.path')` on a stored document. -/
def jsonExtract (d : Doc) (path : String) : Option JsValue :=
  jsonExtractVal (pathSegs path) (.vObj d)

/-- SQLite `json_set` along segments: replaces or creates the final key,
but cannot create a missing intermediate object and leaves non-objects
untouched. -/
def jsonSetSeg : List String → JsValue → JsValue → JsValue
  | [], _, v => v
  | [k], .vObj fs, v => .vObj (objSet fs k v)
  | k :: rest, .vObj fs, v =>
      match docGet fs k with
      | some sub => .vObj (objSet fs k (jsonSetSeg rest sub v))
      | none => .vObj fs
  | _, d, _ => d

/-- `json_set(document, '$.field', value)` on a stored document. -/
def jsonSetTop (d : Doc) (field : String) (v : JsValue) : Doc :=
  match jsonSetSeg (pathSegs field) (.vObj d) v with
  | .vObj fs => fs
  | _ => d

/-- SQLite `=` between two non-NULL stored scalar values.  JSON booleans
surface from `json_extract` as the integers 1 and 0; values of different
storage classes are never equal.  (Extracted arrays and objects surface as
their JSON text; no verified claim compares those, they are modelled as
unequal to any bound scalar.) -/
def sqlValEq : JsValue → JsValue → Bool
  | .vNum a, .vNum b => a == b
  | .vStr a, .vStr b => a == b
  | .vBool a, .vNum b => (if a then (1 : Int) else 0) == b
  | .vNum a, .vBool b => a == (if b then (1 : Int) else 0)
  | .vBool a, .vBool b => a == b
  | _, _ => false

/-- The SQL comparison `json_extract(...) = ?`: NULL (a missing path or a
stored JSON null) compares false, as does a bound NULL parameter. -/
def sqlEq (extracted : Option JsValue) (param : JsValue) : Bool :=
  match extracted, param with
  | none, _ => false
  | some _, .vNull => false
  | some .vNull, _ => false
  | some v, p => sqlValEq v p

/-- JavaScript truthiness. -/
def truthy : JsValue → Bool
  | .vNull => false
  | .vBool b => b
  | .vNum n => n != 0
  | .vStr s => s != ""
  | .vArr _ => true
  | .vObj _ => true

def truthyOpt : Option JsValue → Bool
  | none => false
  | some v => truthy v

/-- What better-sqlite3 accepts as a bound parameter: numbers, strings and
null; booleans, arrays and objects throw a TypeError at bind time. -/
def bindable : JsValue → Bool
  | .vNum _ => true
  | .vStr _ => true
  | .vNull => true
  | _ => false

/-- JavaScript string coercion as used inside template literals (arrays and
their join are not needed by any verified claim). -/
def jsToString : JsValue → String
  | .vStr s => s
  | .vNum n => toString n
  | .vBool b => if b then "true" else "false"
  | .vNull => "null"
  | .vArr _ => ""
  | .vObj _ => "[object Object]"

/-- `Object.entries`: fields of an object, indexed elements of an array,
indexed characters of a string, empty for other primitives. -/
def jsEntries : JsValue → List (String × JsValue)
  | .vObj fs => fs
  | .vArr xs => xs.enum.map (fun p => (toString p.1, p.2))
  | .vStr s => s.toList.enum.map (fun p => (toString p.1, .vStr (String.mk [p.2])))
  | _ => []

/-- The failures an operation can surface: storage-engine errors
(prepare-time, bind-time, run-time) and the JavaScript `throw`s of the
library itself. -/
inductive Err where
  | noSuchTable : String → Err
  | sqlParseError : Err
  | duplicateKey : String → Err
  | bindError : Err
  | unsupportedUpdate : Err
  | unsupportedOperator : String → Err
  | unsupportedComparison : String → Err
  | unsupportedAggregation : String → Err
  | invalidAggregation : String → Err
  | groupMissingId : Err
  | jsTypeError : Err

/-- The message of each failure, as `find`'s catch block inspects it. -/
def errMessage : Err → String
  | .noSuchTable t => "no such table: " ++ t
  | .sqlParseError => "near \"LIMIT\": syntax error"
  | .duplicateKey t => "UNIQUE constraint failed: " ++ t ++ "._id"
  | .bindError => "SQLite3 can only bind numbers, strings, bigints, buffers, and null"
  | .unsupportedUpdate => "Only `$set` updates are supported"
  | .unsupportedOperator k => "Unsupported operator for key " ++ k
  | .unsupportedComparison op => "Unsupported comparison operator: " ++ op
  | .unsupportedAggregation op => "Unsupported aggregation operator: " ++ op
  | .invalidAggregation f => "Invalid aggregation for field " ++ f
  | .groupMissingId => "$group stage must include an _id field for grouping."
  | .jsTypeError => "undefined is not iterable"

def includesChars (needle : List Char) : List Char → Bool
  | [] => needle.isEmpty
  | c :: rest => needle.isPrefixOf (c :: rest) || includesChars needle rest

/-- JavaScript `haystack.includes(sub)`. -/
def strIncludes (s sub : String) : Bool := includesChars sub.toList s.toList

def countOccur (needle : List Char) : List Char → Nat
  | [] => 0
  | c :: rest => (if needle.isPrefixOf (c :: rest) then 1 else 0) + countOccur needle rest

/-- How many (possibly overlapping) occurrences of `sub` appear in `s`. -/
def strCount (s sub : String) : Nat := countOccur sub.toList s.toList

/-- One stored row of a collection table: the `_id` primary-key column and the
parsed contents of the `document` JSON column (`JSON.stringify` and
`JSON.parse` cancel, so the blob is kept in structured form). -/
structure Row where
  id : JsValue
  document : Doc

/-- The database: tables in creation order, each a list of rows in rowid
(insertion) order — the storage-defined row order of a plain scan. -/
abbrev Db := List (String × List Row)

def dbGet : Db → String → Option (List Row)
  | [], _ => none
  | (t, rows) :: rest, n => if t = n then some rows else dbGet rest n

def tableExists (db : Db) (n : String) : Bool := (dbGet db n).isSome

def dbSet : Db → String → List Row → Db
  | [], n, rows => [(n, rows)]
  | (t, r) :: rest, n, rows =>
      if t = n then (t, rows) :: rest else (t, r) :: dbSet rest n rows

/-- The state an operation leaves behind: its new state on success, the
unchanged input state when it threw. -/
def postState {α : Type} (db : Db) : Except Err (Db × α) → Db
  | .ok (db2, _) => db2
  | .error _ => db

/-- The identity resolution `document._id || uuidv4()` of `insertOne` /
`insertMany`: a truthy `_id` is kept, anything else (absent or falsy) is
replaced by the freshly generated UUID string `gen`. -/
def resolveId (doc : Doc) (gen : String) : JsValue :=
  match docGet doc "_id" with
  | some v => if truthy v then v else .vStr gen
  | none => .vStr gen

/-- Whether the `_id` primary-key column already holds this value (the
UNIQUE-constraint check the engine runs on insert). -/
def hasId (rows : List Row) (id : JsValue) : Bool :=
  rows.any (fun r => sqlValEq r.id id)

structure InsertOneResult where
  acknowledged : Bool
  insertedId : JsValue

structure InsertManyResult where
  acknowledged : Bool
  insertedCount : Nat

structure UpdateResult where
  acknowledged : Bool
  modifiedCount : Nat

structure DeleteResult where
  acknowledged : Bool
  deletedCount : Nat

/-- `insertOne(collectionName, document)`: resolve the identity, prepare
`INSERT INTO <name> (_id, document) VALUES (?, ?)` (failing if the table is
missing), bind (failing on a non-bindable id), run the primary-key uniqueness
check, and append the row with the resolved `_id` stamped into the blob. -/
def insertOne (db : Db) (n : String) (doc : Doc) (gen : String) :
    Except Err (Db × InsertOneResult) :=
  match dbGet db n with
  | none => .error (.noSuchTable n)
  | some rows =>
      if bindable (resolveId doc gen) then
        if hasId rows (resolveId doc gen) then .error (.duplicateKey n)
        else
          .ok (dbSet db n
                (rows ++ [⟨resolveId doc gen, objSet doc "_id" (resolveId doc gen)⟩]),
               ⟨true, resolveId doc gen⟩)
      else .error .bindError

/-- The body of `insertMany`'s transaction: one `stmt.run` per document, each
resolving the identity with the `i`-th generated UUID, binding, checking the
primary key against the rows already present (earlier rows of the same batch
included) and appending the stamped row. -/
def insertManyLoop (n : String) (gens : Nat → String) :
    Nat → List Doc → List Row → Except Err (List Row)
  | _, [], rows => .ok rows
  | i, doc :: rest, rows =>
      if bindable (resolveId doc (gens i)) then
        if hasId rows (resolveId doc (gens i)) then .error (.duplicateKey n)
        else
          insertManyLoop n gens (i + 1) rest
            (rows ++ [⟨resolveId doc (gens i), objSet doc "_id" (resolveId doc (gens i))⟩])
      else .error .bindError

/-- The rows `insertMany` stamps for a batch, starting at generator index `i`. -/
def stampedRows (gens : Nat → String) : Nat → List Doc → List Row
  | _, [] => []
  | i, doc :: rest =>
      ⟨resolveId doc (gens i), objSet doc "_id" (resolveId doc (gens i))⟩ ::
        stampedRows gens (i + 1) rest

/-- `insertMany(collectionName, documents)`: the statement is prepared before
the transaction (a missing table fails here), then the whole loop runs inside
`db.transaction`, which rolls the state back to `db` when any single insert
throws.  The pair returned is (state afterwards, outcome). -/
def insertMany (db : Db) (n : String) (docs : List Doc) (gens : Nat → String) :
    Db × Except Err InsertManyResult :=
  match dbGet db n with
  | none => (db, .error (.noSuchTable n))
  | some rows =>
      match insertManyLoop n gens 0 docs rows with
      | .error e => (db, .error e)
      | .ok rows2 => (dbSet db n rows2, .ok ⟨true, docs.length⟩)

/-- The per-field clause `find` builds: every field maps to a spliced-path
equality test, whatever the shape of its value. -/
def eqClause (key : String) : String :=
  "json_extract(document, '$." ++ key ++ "') = ?"

/-- The WHERE-clause body of `find`'s statement. -/
def findConditions (q : Doc) : String :=
  String.intercalate " AND " (q.map (fun p => eqClause p.1))

/-- The exact statement text `find` prepares (template-literal whitespace
included), with the collection name spliced in verbatim. -/
def findSql (n : String) (q : Doc) : String :=
  "\n      SELECT _id, document FROM " ++ n ++ " \n      " ++
    (if findConditions q = "" then "" else "WHERE " ++ findConditions q) ++ "\n    "

/-- A row of the conjunction of `find`'s per-field equality clauses. -/
def matchesEq (q : Doc) (r : Row) : Bool :=
  q.all (fun p => sqlEq (jsonExtract r.document p.1) p.2)

/-- The result-row decode `{ _id: row._id, ...JSON.parse(row.document) }`:
the `_id` slot is declared first and then overwritten by the blob's own
`_id` field when the blob has one; the other blob fields follow in order. -/
def findRowDoc (r : Row) : Doc :=
  ("_id", (docGet r.document "_id").getD r.id) ::
    r.document.filter (fun p => p.1 != "_id")

/-- `find(collectionName, query)` before its catch block: prepare (missing
table fails), bind `Object.values(query)` in order (a non-bindable value
fails), filter by the conjoined equality clauses, decode each row. -/
def findRaw (db : Db) (n : String) (q : Doc) : Except Err (List Doc) :=
  match dbGet db n with
  | none => .error (.noSuchTable n)
  | some rows =>
      if (q.map (fun p => p.2)).all bindable then
        .ok ((rows.filter (matchesEq q)).map findRowDoc)
      else .error .bindError

/-- `find(collectionName, query)`: the catch block converts exactly the
errors whose message contains "no such table" into an empty result and
rethrows every other error. -/
def find (db : Db) (n : String) (q : Doc) : Except Err (List Doc) :=
  match findRaw db n q with
  | .ok r => .ok r
  | .error e =>
      if strIncludes (errMessage e) "no such table" then .ok [] else .error e

/-- `countDocuments(collectionName, query)`: the same conjoined equality
predicate (with the JSON paths bound as parameters), `COUNT(*)` over the
matching rows, and no catch block — a missing table propagates. -/
def countDocuments (db : Db) (n : String) (q : Doc) : Except Err Nat :=
  match dbGet db n with
  | none => .error (.noSuchTable n)
  | some rows =>
      if (q.map (fun p => p.2)).all bindable then
        .ok (rows.filter (matchesEq q)).length
      else .error .bindError

/-- The WHERE-clause body `updateOne` / `deleteOne` / `countDocuments` build:
one `json_extract(document, ?) = ?` per query field. -/
def boundConditions (q : Doc) : String :=
  String.intercalate " AND " (q.map (fun _ => "json_extract(document, ?) = ?"))

/-- The exact statement text `deleteOne` prepares. -/
def deleteOneSql (n : String) (q : Doc) : String :=
  "DELETE FROM " ++ n ++ " WHERE " ++ boundConditions q ++ " LIMIT 1"

/-- The SET-clause body `updateOne` builds from the `$set` fields. -/
def setStatements (setEntries : Doc) : String :=
  String.intercalate ", "
    (setEntries.map (fun p => "document = json_set(document, '$." ++ p.1 ++ "', ?)"))

/-- The exact statement text `updateOne` prepares. -/
def updateOneSql (n : String) (q : Doc) (setEntries : Doc) : String :=
  "UPDATE " ++ n ++ " SET " ++ setStatements setEntries ++ " WHERE " ++
    boundConditions q ++ " LIMIT 1"

/-- Replace the first row satisfying `p` (the row SQLite's `LIMIT 1` picks on
an unordered scan: the first in rowid order). -/
def updateFirst (p : Row → Bool) (f : Row → Row) : List Row → List Row
  | [] => []
  | r :: rest => if p r then f r :: rest else r :: updateFirst p f rest

/-- Remove the first row satisfying `p`. -/
def removeFirst (p : Row → Bool) : List Row → List Row
  | [] => []
  | r :: rest => if p r then rest else r :: removeFirst p rest

/-- `result.changes` of a `LIMIT 1` update or delete. -/
def countFirst (p : Row → Bool) (rows : List Row) : Nat :=
  if rows.any p then 1 else 0

/-- Apply `document = json_set(document, '$.field', ?)` once per `$set`
field, left to right. -/
def applySet (setEntries : Doc) (d : Doc) : Doc :=
  setEntries.foldl (fun acc p => jsonSetTop acc p.1 p.2) d

/-- `Object.entries(update.$set)`, the field/value pairs of the `$set`
object. -/
def updateSetEntries (update : Doc) : Doc :=
  jsEntries ((docGet update "$set").getD .vNull)

/-- `updateOne(collectionName, query, update)`: throw unless `update.$set` is
truthy (other top-level keys are never inspected), build the statement text,
prepare it — an empty query leaves `WHERE  LIMIT 1` and an empty `$set`
leaves `SET  WHERE`, both rejected by the SQL parser before the table is
resolved — bind, and rewrite the first matching row. -/
def updateOne (db : Db) (n : String) (q : Doc) (update : Doc) :
    Except Err (Db × UpdateResult) :=
  if truthyOpt (docGet update "$set") then
    if q.isEmpty || (updateSetEntries update).isEmpty then .error .sqlParseError
    else
      match dbGet db n with
      | none => .error (.noSuchTable n)
      | some rows =>
          if ((updateSetEntries update).map (fun p => p.2)).all bindable &&
              (q.map (fun p => p.2)).all bindable then
            .ok (dbSet db n
                  (updateFirst (matchesEq q)
                    (fun r => ⟨r.id, applySet (updateSetEntries update) r.document⟩) rows),
                 ⟨true, countFirst (matchesEq q) rows⟩)
          else .error .bindError
  else .error .unsupportedUpdate

/-- `deleteOne(collectionName, query)`: build the statement, prepare it — an
empty query leaves `WHERE  LIMIT 1`, rejected by the SQL parser — bind, and
remove the first matching row. -/
def deleteOne (db : Db) (n : String) (q : Doc) :
    Except Err (Db × DeleteResult) :=
  if q.isEmpty then .error .sqlParseError
  else
    match dbGet db n with
    | none => .error (.noSuchTable n)
    | some rows =>
        if (q.map (fun p => p.2)).all bindable then
          .ok (dbSet db n (removeFirst (matchesEq q) rows),
               ⟨true, countFirst (matchesEq q) rows⟩)
        else .error .bindError

/-- The exact statement text `createCollection` passes to `db.exec`, with the
collection name spliced in verbatim (template-literal whitespace included). -/
def createCollectionSql (n : String) : String :=
  "CREATE TABLE IF NOT EXISTS " ++ n ++
    " (\n             _id TEXT PRIMARY KEY,\n             document JSON\n          )"

/-- `typeof value === "object" && value !== null` (arrays are objects to
`typeof`). -/
def isJsObject : JsValue → Bool
  | .vObj _ => true
  | .vArr _ => true
  | _ => false

/-- The `comparisonOperators` table of `aggregate`'s `$match` handling. -/
def comparisonOperators (op : String) : Option String :=
  if op = "$eq" then some "="
  else if op = "$gt" then some ">"
  else if op = "$gte" then some ">="
  else if op = "$lt" then some "<"
  else if op = "$lte" then some "<="
  else if op = "$ne" then some "!=" else none

/-- One `$match` entry: an operator object compiles its first entry through
the comparison table (an empty object fails destructuring, an unknown key
throws), anything else compiles to equality; the operand is pushed onto the
parameter list. -/
def matchEntry (key : String) (value : JsValue) :
    Except Err (String × List JsValue) :=
  if isJsObject value then
    match jsEntries value with
    | [] => .error .jsTypeError
    | (op, operand) :: _ =>
        match comparisonOperators op with
        | none => .error (.unsupportedComparison op)
        | some sqlOp =>
            .ok ("json_extract(document, '$." ++ key ++ "') " ++ sqlOp ++ " ?",
                 [operand])
  else .ok ("json_extract(document, '$." ++ key ++ "') = ?", [value])

/-- The clause list and parameter list of one `$match` stage, in entry
order. -/
def matchConditions : List (String × JsValue) →
    Except Err (List String × List JsValue)
  | [] => .ok ([], [])
  | (k, v) :: rest =>
      match matchEntry k v with
      | .error e => .error e
      | .ok (c, ps) =>
          match matchConditions rest with
          | .error e => .error e
          | .ok (cs, ps2) => .ok (c :: cs, ps ++ ps2)

/-- The `validAggregates` table of `aggregate`'s `$group` handling. -/
def validAggregates (op : String) : Option String :=
  if op = "$sum" then some "SUM"
  else if op = "$avg" then some "AVG"
  else if op = "$count" then some "COUNT"
  else if op = "$max" then some "MAX"
  else if op = "$min" then some "MIN" else none

/-- One aggregation request of a `$group` stage, compiled to its output
column. -/
def aggField (field : String) (operation : JsValue) : Except Err String :=
  if isJsObject operation then
    match jsEntries operation with
    | [] => .error .jsTypeError
    | (op, jsonField) :: _ =>
        match validAggregates op with
        | none => .error (.unsupportedAggregation op)
        | some sqlOp =>
            let sqlField :=
              if op = "$count" then "*"
              else "COALESCE(json_extract(document, '$." ++
                jsToString jsonField ++ "'), 0)"
            .ok (sqlOp ++ "(" ++ sqlField ++ ") AS " ++ field)
  else .error (.invalidAggregation field)

def aggFields : List (String × JsValue) → Except Err (List String)
  | [] => .ok []
  | (f, op) :: rest =>
      match aggField f op with
      | .error e => .error e
      | .ok s =>
          match aggFields rest with
          | .error e => .error e
          | .ok ss => .ok (s :: ss)

/-- A pipeline stage is a JavaScript object; `aggregate` inspects its
`$match` and `$group` keys. -/
abbrev Stage := List (String × JsValue)

/-- The mutable locals of `aggregate`'s stage loop. -/
structure AggState where
  baseQuery : String
  groupClause : String
  params : List JsValue
  outputFields : List String

/-- One iteration of `aggregate`'s `pipeline.forEach`: a truthy `$match`
appends a fresh ` WHERE <conditions>` onto `baseQuery` (one per stage —
nothing merges it with a previous stage's clause), and a truthy `$group`
overwrites `groupClause` and extends the output columns. -/
def processStage (st : AggState) (stage : Stage) : Except Err AggState :=
  let afterMatch : Except Err AggState :=
    if truthyOpt (docGet stage "$match") then
      match matchConditions (jsEntries ((docGet stage "$match").getD .vNull)) with
      | .error e => .error e
      | .ok (cs, ps) =>
          .ok { st with
                baseQuery := st.baseQuery ++ " WHERE " ++ String.intercalate " AND " cs,
                params := st.params ++ ps }
    else .ok st
  match afterMatch with
  | .error e => .error e
  | .ok st1 =>
      if truthyOpt (docGet stage "$group") then
        let gEntries := jsEntries ((docGet stage "$group").getD .vNull)
        let idOpt := docGet gEntries "_id"
        if truthyOpt idOpt then
          let idStr := jsToString (idOpt.getD .vNull)
          match aggFields (gEntries.filter (fun p => p.1 != "_id")) with
          | .error e => .error e
          | .ok fs =>
              .ok { st1 with
                    groupClause :=
                      "GROUP BY json_extract(document, '$." ++ idStr ++ "')",
                    outputFields := st1.outputFields ++
                      ("json_extract(document, '$." ++ idStr ++ "') AS groupKey") :: fs }
        else .error .groupMissingId
      else .ok st1

def foldStages (st : AggState) : List Stage → Except Err AggState
  | [] => .ok st
  | s :: rest =>
      match processStage st s with
      | .error e => .error e
      | .ok st2 => foldStages st2 rest

/-- `aggregate(collectionName, pipeline)` up to `db.prepare(finalQuery)`: the
statement text and the ordered parameter list the code assembles. -/
def aggregateSql (n : String) (pipeline : List Stage) :
    Except Err (String × List JsValue) :=
  match foldStages ⟨"SELECT document FROM " ++ n, "", [], []⟩ pipeline with
  | .error e => .error e
  | .ok st =>
      let selectClause :=
        if st.outputFields.isEmpty then "document"
        else String.intercalate ", " st.outputFields
      .ok ("SELECT " ++ selectClause ++ " FROM (" ++ st.baseQuery ++ ") " ++
             st.groupClause,
           st.params)

/-- The identifier grammar of the specification (§4.1): a candidate
collection name or single path segment is valid iff it matches
`^[A-Za-z_][A-Za-z0-9_]*$`. -/
def specIsValidIdentifier (s : String) : Bool :=
  match s.toList with
  | [] => false
  | c :: cs =>
      (c.isAlpha || c = '_') && cs.all (fun d => d.isAlphanum || d = '_')

/-- The specification's multi-segment rule: a dotted field path is valid iff
every segment is a valid identifier. -/
def specIsValidFieldPath (s : String) : Bool :=
  (pathSegs s).all specIsValidIdentifier

/-- Whether a `find` outcome is the `UnsupportedOperator` failure the
specification's predicate compiler would raise. -/
def isUnsupportedOperatorErr (r : Except Err (List Doc)) : Bool :=
  match r with
  | .error (.unsupportedOperator _) => true
  | _ => false

/-- Whether an `updateOne` outcome is the `UnsupportedUpdateOperator`
failure. -/
def isUnsupportedUpdateErr (r : Except Err (Db × UpdateResult)) : Bool :=
  match r with
  | .error .unsupportedUpdate => true
  | _ => false

/-- The invariant of §3: in every row of every collection the primary-key
column equals the `_id` field embedded in the blob. -/
def rowOk (r : Row) : Prop := docGet r.document "_id" = some r.id

def dbInvariant (db : Db) : Prop :=
  ∀ t rows, (t, rows) ∈ db → ∀ r ∈ rows, rowOk r

set_option maxRecDepth 40000

theorem isPrefixOf_append_self (l m : List Char) : l.isPrefixOf (l ++ m) = true := by
  induction l with
  | nil => simp [List.isPrefixOf]
  | cons c cs ih => simp [List.isPrefixOf, ih]

theorem includesChars_of_isPrefixOf (needle hay : List Char)
    (h : needle.isPrefixOf hay = true) (hne : hay ≠ []) :
    includesChars needle hay = true := by
  cases hay with
  | nil => exact absurd rfl hne
  | cons c rest => simp [includesChars, h]

theorem noSuchTable_msg_includes (t : String) :
    strIncludes (errMessage (.noSuchTable t)) "no such table" = true := by
  unfold strIncludes errMessage
  apply includesChars_of_isPrefixOf
  · have h1 : ("no such table: " ++ t).toList
        = "no such table".toList ++ (": " ++ t).toList := by
      show ("no such table: " ++ t).data = "no such table".data ++ (": " ++ t).data
      rw [String.data_append, String.data_append]
      rw [show ("no such table: ").data = "no such table".data ++ (": ").data from by decide]
      rw [List.append_assoc]
    rw [h1]
    exact isPrefixOf_append_self _ _
  · show ("no such table: " ++ t).data ≠ []
    rw [String.data_append]
    simp

theorem bindError_msg_not_noSuchTable :
    strIncludes (errMessage .bindError) "no such table" = false := by decide

theorem findRaw_error_cases (db : Db) (n : String) (q : Doc) (e : Err)
    (h : findRaw db n q = .error e) : e = .noSuchTable n ∨ e = .bindError := by
  unfold findRaw at h
  split at h
  · exact Or.inl (by cases h; rfl)
  · split at h
    · cases h
    · exact Or.inr (by cases h; rfl)

theorem filter_matchesEq_nil (rows : List Row) :
    rows.filter (matchesEq []) = rows :=
  List.filter_eq_self.mpr (fun _ _ => rfl)

/-- C1: the claim fails against the code — no identifier validator exists.
On a collection name the specification's grammar rejects, the operations
still build their statement text with the name spliced in verbatim (shown
here for `createCollection` and `find`) instead of rejecting with
`InvalidIdentifier` before any statement executes; the grammar itself does
accept every well-formed name and dotted path. -/
theorem c1_identifiers_never_validated :
    specIsValidIdentifier "users; DROP TABLE x" = false ∧
    createCollectionSql "users; DROP TABLE x" =
      "CREATE TABLE IF NOT EXISTS users; DROP TABLE x (\n             _id TEXT PRIMARY KEY,\n             document JSON\n          )" ∧
    findSql "users; DROP TABLE x" [] =
      "\n      SELECT _id, document FROM users; DROP TABLE x \n      \n    " ∧
    specIsValidIdentifier "valid_name1" = true ∧
    specIsValidFieldPath "a.b" = true ∧
    specIsValidFieldPath "a..b" = false :=
  ⟨by decide, rfl, rfl, by decide, by decide, by decide⟩

/-- C2: the claim fails against the code — each `$match` stage appends its
own ` WHERE <conditions>` onto `baseQuery`, so a pipeline with two `$match`
stages and a `$group` compiles to a statement with two WHERE clauses (a
statement the SQL parser rejects, since a SELECT admits one WHERE clause)
rather than to the single conjoined filter that the merged pipeline
produces. -/
theorem c2_multi_match_appends_second_where :
    aggregateSql "t"
      [[("$match", JsValue.vObj [("a", JsValue.vNum 1)])],
       [("$match", JsValue.vObj [("b", JsValue.vNum 2)])],
       [("$group", JsValue.vObj [("_id", JsValue.vStr "g"),
          ("n", JsValue.vObj [("$count", JsValue.vNum 1)])])]] =
      .ok ("SELECT json_extract(document, '$.g') AS groupKey, COUNT(*) AS n FROM (SELECT document FROM t WHERE json_extract(document, '$.a') = ? WHERE json_extract(document, '$.b') = ?) GROUP BY json_extract(document, '$.g')",
           [JsValue.vNum 1, JsValue.vNum 2]) ∧
    strCount "SELECT json_extract(document, '$.g') AS groupKey, COUNT(*) AS n FROM (SELECT document FROM t WHERE json_extract(document, '$.a') = ? WHERE json_extract(document, '$.b') = ?) GROUP BY json_extract(document, '$.g')"
      " WHERE " = 2 ∧
    aggregateSql "t"
      [[("$match", JsValue.vObj [("a", JsValue.vNum 1), ("b", JsValue.vNum 2)])],
       [("$group", JsValue.vObj [("_id", JsValue.vStr "g"),
          ("n", JsValue.vObj [("$count", JsValue.vNum 1)])])]] =
      .ok ("SELECT json_extract(document, '$.g') AS groupKey, COUNT(*) AS n FROM (SELECT document FROM t WHERE json_extract(document, '$.a') = ? AND json_extract(document, '$.b') = ?) GROUP BY json_extract(document, '$.g')",
           [JsValue.vNum 1, JsValue.vNum 2]) ∧
    strCount "SELECT json_extract(document, '$.g') AS groupKey, COUNT(*) AS n FROM (SELECT document FROM t WHERE json_extract(document, '$.a') = ? AND json_extract(document, '$.b') = ?) GROUP BY json_extract(document, '$.g')"
      " WHERE " = 1 :=
  ⟨rfl, by decide, rfl, by decide⟩

/-- C3: the claim fails against the code at this input — `find` does not
recognise operator objects: a `$gt` query compiles to an equality clause
whose parameter is the operator object itself, which then fails at bind
time, not with `UnsupportedOperator`. -/
theorem c3_counterexample :
    find [("t", [⟨JsValue.vStr "a", [("_id", JsValue.vStr "a"), ("age", JsValue.vNum 30)]⟩])]
        "t" [("age", JsValue.vObj [("$gt", JsValue.vNum 5)])] = .error .bindError ∧
    isUnsupportedOperatorErr
      (find [("t", [⟨JsValue.vStr "a", [("_id", JsValue.vStr "a"), ("age", JsValue.vNum 30)]⟩])]
        "t" [("age", JsValue.vObj [("$gt", JsValue.vNum 5)])]) = false :=
  ⟨rfl, rfl⟩

/-- C3 (amended): `find` compiles every query field to an equality clause
whatever the shape of its value, never raises `UnsupportedOperator`, and on
an operator-object value fails at bind time with the engine's generic bind
error (objects are not bindable parameters). -/
theorem c3_find_equality_only (db : Db) (n : String) (q : Doc) :
    findConditions q = String.intercalate " AND " (q.map (fun p => eqClause p.1)) ∧
    isUnsupportedOperatorErr (find db n q) = false ∧
    (∀ k op v, tableExists db n = true → (k, JsValue.vObj [(op, v)]) ∈ q →
      find db n q = .error .bindError) := by
  refine ⟨rfl, ?_, ?_⟩
  · unfold find
    cases hr : findRaw db n q with
    | ok l => simp [isUnsupportedOperatorErr]
    | error e =>
        rcases findRaw_error_cases db n q e hr with he | he <;> subst he
        · simp [noSuchTable_msg_includes, isUnsupportedOperatorErr]
        · simp [bindError_msg_not_noSuchTable, isUnsupportedOperatorErr]
  · intro k op v hex hmem
    have hb : (q.map (fun p => p.2)).all bindable = false := by
      rw [List.all_eq_false]
      exact ⟨JsValue.vObj [(op, v)], List.mem_map_of_mem _ hmem, by simp [bindable]⟩
    unfold find findRaw
    cases hdb : dbGet db n with
    | none => simp [tableExists, hdb] at hex
    | some rows => simp [hdb, hb, bindError_msg_not_noSuchTable]

/-- C3 (amended) at a concrete input: an existing collection and a `$gt`
operator object produce the bind failure the amended claim describes. -/
theorem c3_find_equality_only_witness :
    tableExists [("t", [⟨JsValue.vStr "a", [("_id", JsValue.vStr "a")]⟩])] "t" = true ∧
    find [("t", [⟨JsValue.vStr "a", [("_id", JsValue.vStr "a")]⟩])] "t"
      [("age", JsValue.vObj [("$gt", JsValue.vNum 5)])] = .error .bindError :=
  ⟨rfl,
   (c3_find_equality_only [("t", [⟨JsValue.vStr "a", [("_id", JsValue.vStr "a")]⟩])] "t"
      [("age", JsValue.vObj [("$gt", JsValue.vNum 5)])]).2.2
     "age" "$gt" (JsValue.vNum 5) rfl (List.mem_singleton.mpr rfl)⟩

/-- C7: the claim fails against the code at this input — an update object
holding `$set` together with another top-level key (`$inc`) is not rejected:
the extra key is silently ignored and the update succeeds. -/
theorem c7_counterexample :
    updateOne [("t", [⟨JsValue.vStr "a", [("_id", JsValue.vStr "a"), ("name", JsValue.vStr "x")]⟩])]
      "t" [("name", JsValue.vStr "x")]
      [("$set", JsValue.vObj [("a", JsValue.vNum 1)]), ("$inc", JsValue.vObj [("b", JsValue.vNum 2)])] =
      .ok ([("t", [⟨JsValue.vStr "a",
              [("_id", JsValue.vStr "a"), ("name", JsValue.vStr "x"), ("a", JsValue.vNum 1)]⟩])],
           ⟨true, 1⟩) ∧
    isUnsupportedUpdateErr
      (updateOne [("t", [⟨JsValue.vStr "a", [("_id", JsValue.vStr "a"), ("name", JsValue.vStr "x")]⟩])]
        "t" [("name", JsValue.vStr "x")]
        [("$set", JsValue.vObj [("a", JsValue.vNum 1)]), ("$inc", JsValue.vObj [("b", JsValue.vNum 2)])]) = false :=
  ⟨rfl, rfl⟩

/-- C7 (amended): `updateOne` fails with `UnsupportedUpdateOperator` exactly
when the update object's `$set` value is absent or falsy; other top-level
keys are never inspected, and on that failure nothing has executed and the
state is unchanged. -/
theorem c7_set_check_is_truthiness (db : Db) (n : String) (q : Doc) (upd : Doc) :
    isUnsupportedUpdateErr (updateOne db n q upd) = !truthyOpt (docGet upd "$set") ∧
    (truthyOpt (docGet upd "$set") = false →
      updateOne db n q upd = .error .unsupportedUpdate ∧
      postState db (updateOne db n q upd) = db) := by
  cases ht : truthyOpt (docGet upd "$set") with
  | false =>
      refine ⟨?_, fun _ => ⟨?_, ?_⟩⟩ <;>
        simp [updateOne, ht, isUnsupportedUpdateErr, postState]
  | true =>
      refine ⟨?_, fun hc => by simp at hc⟩
      unfold updateOne
      simp only [ht, Bool.not_true, if_true]
      split
      · rfl
      · split
        · rfl
        · split
          · rfl
          · rfl

/-- C7 (amended) at a concrete input: an update object with no `$set` key is
rejected before anything executes. -/
theorem c7_set_check_witness :
    updateOne ([] : Db) "t" [] [("$inc", JsValue.vObj [("b", JsValue.vNum 2)])] =
      .error .unsupportedUpdate ∧
    postState ([] : Db)
      (updateOne ([] : Db) "t" [] [("$inc", JsValue.vObj [("b", JsValue.vNum 2)])]) = ([] : Db) :=
  (c7_set_check_is_truthiness ([] : Db) "t" [] [("$inc", JsValue.vObj [("b", JsValue.vNum 2)])]).2 rfl

theorem find_all_rows (db : Db) (n : String) (rows : List Row)
    (h : dbGet db n = some rows) :
    find db n [] = .ok (rows.map findRowDoc) ∧
    countDocuments db n [] = .ok rows.length := by
  constructor
  · unfold find findRaw
    rw [h]
    simp [filter_matchesEq_nil]
  · unfold countDocuments
    rw [h]
    simp [filter_matchesEq_nil]

/-- C8: the claim fails against the code at this input — on a state where
the collection's table does not exist, `find` with the empty query returns
the empty sequence but `countDocuments` has no catch block and propagates
the missing-table failure instead of returning 0. -/
theorem c8_counterexample :
    countDocuments ([] : Db) "c" [] = .error (.noSuchTable "c") ∧
    find ([] : Db) "c" [] = .ok ([] : List Doc) :=
  ⟨rfl, rfl⟩

/-- C8 (amended): whenever the collection's table exists,
`countDocuments(name, {})` equals the length of `find(name, {})`. -/
theorem c8_count_matches_find_length (db : Db) (n : String) (rows : List Row)
    (h : dbGet db n = some rows) :
    find db n [] = .ok (rows.map findRowDoc) ∧
    countDocuments db n [] = .ok (rows.map findRowDoc).length := by
  obtain ⟨h1, h2⟩ := find_all_rows db n rows h
  exact ⟨h1, by rw [h2, List.length_map]⟩

/-- C8 (amended) at a concrete input: on an existing one-row collection both
sides agree. -/
theorem c8_count_matches_find_length_witness :
    ∃ docs, find [("t", [⟨JsValue.vStr "a", [("_id", JsValue.vStr "a")]⟩])] "t" [] = .ok docs ∧
      countDocuments [("t", [⟨JsValue.vStr "a", [("_id", JsValue.vStr "a")]⟩])] "t" [] =
        .ok docs.length :=
  ⟨_, (c8_count_matches_find_length [("t", [⟨JsValue.vStr "a", [("_id", JsValue.vStr "a")]⟩])]
        "t" [⟨JsValue.vStr "a", [("_id", JsValue.vStr "a")]⟩] rfl).1,
      (c8_count_matches_find_length [("t", [⟨JsValue.vStr "a", [("_id", JsValue.vStr "a")]⟩])]
        "t" [⟨JsValue.vStr "a", [("_id", JsValue.vStr "a")]⟩] rfl).2⟩

/-- C10: with the empty query object, `updateOne` and `deleteOne` build a
statement whose condition list is empty (`WHERE  LIMIT 1`), which the SQL
parser rejects before anything runs — the state is unchanged, no row is
touched — while `find` and `countDocuments` guard the WHERE clause and
treat the empty query as matching every row. -/
theorem c10_empty_query_not_match_all (db : Db) (n : String) (upd : Doc)
    (hset : truthyOpt (docGet upd "$set") = true) :
    boundConditions [] = "" ∧
    updateOne db n [] upd = .error .sqlParseError ∧
    postState db (updateOne db n [] upd) = db ∧
    deleteOne db n [] = .error .sqlParseError ∧
    postState db (deleteOne db n []) = db ∧
    (∀ rows, dbGet db n = some rows →
      find db n [] = .ok (rows.map findRowDoc) ∧
      countDocuments db n [] = .ok rows.length) := by
  have h1 : updateOne db n [] upd = .error .sqlParseError := by
    simp [updateOne, hset]
  refine ⟨rfl, h1, by rw [h1]; rfl, rfl, rfl, fun rows h => find_all_rows db n rows h⟩

theorem objSet_get_self (d : Doc) (k : String) (v : JsValue) :
    docGet (objSet d k v) k = some v := by
  induction d with
  | nil => simp [objSet, docGet]
  | cons p rest ih =>
      by_cases hk : p.1 = k
      · simp [objSet, hk, docGet]
      · simp [objSet, hk, docGet, ih]

theorem objSet_get_ne (d : Doc) (k : String) (v : JsValue) (key : String)
    (h : k ≠ key) : docGet (objSet d k v) key = docGet d key := by
  induction d with
  | nil => simp [objSet, docGet, h]
  | cons p rest ih =>
      by_cases hk : p.1 = k
      · simp [objSet, hk, docGet, h]
      · simp [objSet, hk, docGet, ih]

theorem segsOf_ne_nil (cs : List Char) : segsOf cs ≠ [] := by
  cases cs with
  | nil => simp [segsOf]
  | cons c rest =>
      simp only [segsOf]
      split
      · simp
      · split <;> simp

theorem jsonSetTop_get_ne (d : Doc) (field : String) (v : JsValue)
    (h : (pathSegs field).headD "" ≠ "_id") :
    docGet (jsonSetTop d field v) "_id" = docGet d "_id" := by
  unfold jsonSetTop
  cases hs : pathSegs field with
  | nil => exact absurd hs (segsOf_ne_nil _)
  | cons k ks =>
      rw [hs] at h
      simp only [List.headD_cons] at h
      cases ks with
      | nil => simp [jsonSetSeg, objSet_get_ne _ _ _ _ h]
      | cons k2 ks2 =>
          simp only [jsonSetSeg]
          cases docGet d k with
          | none => simp [docGet]
          | some sub => simp [objSet_get_ne _ _ _ _ h]

theorem applySet_get_id (entries : Doc) (d : Doc)
    (h : ∀ p ∈ entries, (pathSegs p.1).headD "" ≠ "_id") :
    docGet (applySet entries d) "_id" = docGet d "_id" := by
  induction entries generalizing d with
  | nil => rfl
  | cons p rest ih =>
      show docGet (applySet rest (jsonSetTop d p.1 p.2)) "_id" = docGet d "_id"
      rw [ih (jsonSetTop d p.1 p.2) (fun q hq => h q (List.mem_cons_of_mem _ hq))]
      exact jsonSetTop_get_ne d p.1 p.2 (h p (List.mem_cons_self _ _))

theorem updateFirst_forall {P : Row → Prop} (p : Row → Bool) (f : Row → Row)
    (rows : List Row) (h1 : ∀ r ∈ rows, P r) (h2 : ∀ r, P r → P (f r)) :
    ∀ r ∈ updateFirst p f rows, P r := by
  induction rows with
  | nil => intro r hr; cases hr
  | cons a rest ih =>
      intro r hr
      unfold updateFirst at hr
      split at hr
      · rcases List.mem_cons.mp hr with h | h
        · exact h ▸ h2 a (h1 a (List.mem_cons_self _ _))
        · exact h1 r (List.mem_cons_of_mem _ h)
      · rcases List.mem_cons.mp hr with h | h
        · exact h ▸ h1 a (List.mem_cons_self _ _)
        · exact ih (fun s hs => h1 s (List.mem_cons_of_mem _ hs)) r h

theorem removeFirst_subset (p : Row → Bool) (rows : List Row) :
    ∀ r ∈ removeFirst p rows, r ∈ rows := by
  induction rows with
  | nil => intro r hr; cases hr
  | cons a rest ih =>
      intro r hr
      unfold removeFirst at hr
      split at hr
      · exact List.mem_cons_of_mem _ hr
      · rcases List.mem_cons.mp hr with h | h
        · exact h ▸ List.mem_cons_self _ _
        · exact List.mem_cons_of_mem _ (ih r h)

theorem dbSet_mem (db : Db) (n : String) (rows : List Row) (t : String)
    (rs : List Row) (h : (t, rs) ∈ dbSet db n rows) :
    rs = rows ∨ (t, rs) ∈ db := by
  induction db with
  | nil =>
      simp [dbSet] at h
      exact Or.inl h.2
  | cons p rest ih =>
      unfold dbSet at h
      split at h
      · rcases List.mem_cons.mp h with h | h
        · exact Or.inl (by cases h; rfl)
        · exact Or.inr (List.mem_cons_of_mem _ h)
      · rcases List.mem_cons.mp h with h | h
        · exact Or.inr (h ▸ List.mem_cons_self _ _)
        · rcases ih h with h2 | h2
          · exact Or.inl h2
          · exact Or.inr (List.mem_cons_of_mem _ h2)

theorem dbGet_mem (db : Db) (n : String) (rows : List Row)
    (h : dbGet db n = some rows) : (n, rows) ∈ db := by
  induction db with
  | nil => cases h
  | cons p rest ih =>
      unfold dbGet at h
      split at h
      · cases h
        rename_i heq
        exact heq ▸ (by exact List.mem_cons_self _ _)
      · exact List.mem_cons_of_mem _ (ih h)

theorem insertManyLoop_ok (n : String) (gens : Nat → String) (docs : List Doc) :
    ∀ i rows rows2, insertManyLoop n gens i docs rows = .ok rows2 →
      rows2 = rows ++ stampedRows gens i docs := by
  induction docs with
  | nil =>
      intro i rows rows2 h
      cases h
      simp [stampedRows]
  | cons d rest ih =>
      intro i rows rows2 h
      unfold insertManyLoop at h
      split at h
      · split at h
        · cases h
        · have h2 := ih (i + 1) _ _ h
          rw [h2, stampedRows, List.append_assoc]
          rfl
      · cases h

theorem stampedRows_all_ok (gens : Nat → String) (docs : List Doc) :
    ∀ i r, r ∈ stampedRows gens i docs → rowOk r := by
  induction docs with
  | nil => intro i r h; cases h
  | cons d rest ih =>
      intro i r h
      unfold stampedRows at h
      rcases List.mem_cons.mp h with h2 | h2
      · rw [h2]
        exact objSet_get_self d "_id" (resolveId d (gens i))
      · exact ih (i + 1) r h2

/-- C10 at a concrete input: both statements degenerate to `WHERE  LIMIT 1`
and fail, and the empty query matches every row in `find` and
`countDocuments`. -/
theorem c10_empty_query_witness :
    updateOne [("t", [⟨JsValue.vStr "a", [("_id", JsValue.vStr "a")]⟩])] "t" []
      [("$set", JsValue.vObj [("a", JsValue.vNum 1)])] = .error .sqlParseError ∧
    deleteOne [("t", [⟨JsValue.vStr "a", [("_id", JsValue.vStr "a")]⟩])] "t" [] =
      .error .sqlParseError ∧
    deleteOneSql "t" [] = "DELETE FROM t WHERE  LIMIT 1" ∧
    updateOneSql "t" []
      (updateSetEntries [("$set", JsValue.vObj [("a", JsValue.vNum 1)])]) =
      "UPDATE t SET document = json_set(document, '$.a', ?) WHERE  LIMIT 1" ∧
    countDocuments [("t", [⟨JsValue.vStr "a", [("_id", JsValue.vStr "a")]⟩])] "t" [] = .ok 1 :=
  ⟨(c10_empty_query_not_match_all [("t", [⟨JsValue.vStr "a", [("_id", JsValue.vStr "a")]⟩])]
      "t" [("$set", JsValue.vObj [("a", JsValue.vNum 1)])] rfl).2.1,
   (c10_empty_query_not_match_all [("t", [⟨JsValue.vStr "a", [("_id", JsValue.vStr "a")]⟩])]
      "t" [("$set", JsValue.vObj [("a", JsValue.vNum 1)])] rfl).2.2.2.1,
   rfl, rfl,
   ((c10_empty_query_not_match_all [("t", [⟨JsValue.vStr "a", [("_id", JsValue.vStr "a")]⟩])]
      "t" [("$set", JsValue.vObj [("a", JsValue.vNum 1)])] rfl).2.2.2.2.2
      [⟨JsValue.vStr "a", [("_id", JsValue.vStr "a")]⟩] rfl).2⟩

/-- C4: `insertMany` is atomic — when the batch fails (a missing table at
prepare time, or any single insert's bind or duplicate-key failure inside
the transaction) the error propagates and the state is exactly the input
state; on success every document of the batch is stamped and appended in
order and `insertedCount` is the batch length. -/
theorem c4_insertMany_atomic (db : Db) (n : String) (docs : List Doc)
    (gens : Nat → String) :
    (∀ e, (insertMany db n docs gens).2 = .error e →
      (insertMany db n docs gens).1 = db) ∧
    (∀ r, (insertMany db n docs gens).2 = .ok r →
      r.acknowledged = true ∧ r.insertedCount = docs.length ∧
      ∃ rows, dbGet db n = some rows ∧
        (insertMany db n docs gens).1 = dbSet db n (rows ++ stampedRows gens 0 docs)) := by
  unfold insertMany
  cases hdb : dbGet db n with
  | none =>
      dsimp only
      exact ⟨fun e _ => rfl, fun r h => by simp at h⟩
  | some rows =>
      dsimp only
      cases hloop : insertManyLoop n gens 0 docs rows with
      | error e =>
          dsimp only
          exact ⟨fun e2 _ => rfl, fun r h => by simp at h⟩
      | ok rows2 =>
          dsimp only
          refine ⟨fun e h => by simp at h, fun r h => ?_⟩
          simp only [Except.ok.injEq] at h
          subst h
          exact ⟨rfl, rfl, rows, rfl,
            by rw [insertManyLoop_ok n gens docs 0 rows rows2 hloop]⟩

/-- C4 at a concrete input: a batch whose second document duplicates an
existing primary key fails with `DuplicateKey`, the state is the input
state, and the first document of the batch is not visible either. -/
theorem c4_insertMany_atomic_witness :
    (insertMany [("t", [⟨JsValue.vStr "a", [("_id", JsValue.vStr "a")]⟩])] "t"
        [[("name", JsValue.vStr "d1")], [("_id", JsValue.vStr "a")]]
        (fun i => "gen" ++ toString i)).2 = .error (.duplicateKey "t") ∧
    (insertMany [("t", [⟨JsValue.vStr "a", [("_id", JsValue.vStr "a")]⟩])] "t"
        [[("name", JsValue.vStr "d1")], [("_id", JsValue.vStr "a")]]
        (fun i => "gen" ++ toString i)).1 =
      [("t", [⟨JsValue.vStr "a", [("_id", JsValue.vStr "a")]⟩])] ∧
    find [("t", [⟨JsValue.vStr "a", [("_id", JsValue.vStr "a")]⟩])] "t"
      [("name", JsValue.vStr "d1")] = .ok [] :=
  ⟨rfl,
   (c4_insertMany_atomic [("t", [⟨JsValue.vStr "a", [("_id", JsValue.vStr "a")]⟩])] "t"
      [[("name", JsValue.vStr "d1")], [("_id", JsValue.vStr "a")]]
      (fun i => "gen" ++ toString i)).1 (.duplicateKey "t") rfl,
   rfl⟩

/-- C5: the claim fails against the code at this input — `updateOne` with a
`$set` on `_id` rewrites the `_id` field inside the blob but not the
primary-key column, so the §3 invariant is broken by an operation reachable
through the public interface. -/
theorem c5_counterexample :
    updateOne [("t", [⟨JsValue.vStr "a", [("_id", JsValue.vStr "a"), ("name", JsValue.vStr "x")]⟩])]
        "t" [("name", JsValue.vStr "x")] [("$set", JsValue.vObj [("_id", JsValue.vStr "z")])] =
      .ok ([("t", [⟨JsValue.vStr "a", [("_id", JsValue.vStr "z"), ("name", JsValue.vStr "x")]⟩])],
           ⟨true, 1⟩) ∧
    ¬ dbInvariant [("t", [⟨JsValue.vStr "a", [("_id", JsValue.vStr "z"), ("name", JsValue.vStr "x")]⟩])] := by
  refine ⟨rfl, fun h => ?_⟩
  have h2 : (some (JsValue.vStr "z") : Option JsValue) = some (JsValue.vStr "a") :=
    h "t" [⟨JsValue.vStr "a", [("_id", JsValue.vStr "z"), ("name", JsValue.vStr "x")]⟩]
      (List.mem_singleton.mpr rfl)
      ⟨JsValue.vStr "a", [("_id", JsValue.vStr "z"), ("name", JsValue.vStr "x")]⟩
      (List.mem_singleton.mpr rfl)
  simp at h2

/-- C5 (amended): the Executor stamps the resolved `_id` into the blob
before every insert, so on any state satisfying the invariant, `insertOne`,
`insertMany` and `deleteOne` preserve it unconditionally, and `updateOne`
preserves it whenever no `$set` field path starts at `_id`. -/
theorem c5_id_invariant_preserved (db : Db) (hInv : dbInvariant db) :
    (∀ n doc gen db2 r, insertOne db n doc gen = .ok (db2, r) → dbInvariant db2) ∧
    (∀ n docs gens, dbInvariant (insertMany db n docs gens).1) ∧
    (∀ n q upd db2 r,
      (∀ p ∈ updateSetEntries upd, (pathSegs p.1).headD "" ≠ "_id") →
      updateOne db n q upd = .ok (db2, r) → dbInvariant db2) ∧
    (∀ n q db2 r, deleteOne db n q = .ok (db2, r) → dbInvariant db2) := by
  refine ⟨?_, ?_, ?_, ?_⟩
  · intro n doc gen db2 r h
    unfold insertOne at h
    split at h
    · cases h
    · rename_i rows hdb
      split at h
      · split at h
        · cases h
        · simp only [Except.ok.injEq, Prod.mk.injEq] at h
          obtain ⟨hdb2, _⟩ := h
          subst hdb2
          intro t rs hmem rr hrr
          rcases dbSet_mem db n _ t rs hmem with h2 | h2
          · subst h2
            rcases List.mem_append.mp hrr with h3 | h3
            · exact hInv n rows (dbGet_mem db n rows hdb) rr h3
            · rw [List.mem_singleton.mp h3]
              exact objSet_get_self doc "_id" (resolveId doc gen)
          · exact hInv t rs h2 rr hrr
      · cases h
  · intro n docs gens
    unfold insertMany
    split
    · exact hInv
    · rename_i rows hdb
      split
      · exact hInv
      · rename_i rows2 hloop
        rw [insertManyLoop_ok n gens docs 0 rows rows2 hloop]
        intro t rs hmem rr hrr
        rcases dbSet_mem db n _ t rs hmem with h2 | h2
        · subst h2
          rcases List.mem_append.mp hrr with h3 | h3
          · exact hInv n rows (dbGet_mem db n rows hdb) rr h3
          · exact stampedRows_all_ok gens docs 0 rr h3
        · exact hInv t rs h2 rr hrr
  · intro n q upd db2 r hset h
    unfold updateOne at h
    split at h
    · split at h
      · cases h
      · split at h
        · cases h
        · rename_i rows hdb
          split at h
          · simp only [Except.ok.injEq, Prod.mk.injEq] at h
            obtain ⟨hdb2, _⟩ := h
            subst hdb2
            intro t rs hmem rr hrr
            rcases dbSet_mem db n _ t rs hmem with h2 | h2
            · subst h2
              refine updateFirst_forall (matchesEq q) _ rows
                (fun s hs => hInv n rows (dbGet_mem db n rows hdb) s hs) ?_ rr hrr
              intro s hsOk
              show docGet (applySet (updateSetEntries upd) s.document) "_id" = some s.id
              rw [applySet_get_id _ _ hset]
              exact hsOk
            · exact hInv t rs h2 rr hrr
          · cases h
    · cases h
  · intro n q db2 r h
    unfold deleteOne at h
    split at h
    · cases h
    · split at h
      · cases h
      · rename_i rows hdb
        split at h
        · simp only [Except.ok.injEq, Prod.mk.injEq] at h
          obtain ⟨hdb2, _⟩ := h
          subst hdb2
          intro t rs hmem rr hrr
          rcases dbSet_mem db n _ t rs hmem with h2 | h2
          · subst h2
            exact hInv n rows (dbGet_mem db n rows hdb) rr
              (removeFirst_subset (matchesEq q) rows rr hrr)
          · exact hInv t rs h2 rr hrr
        · cases h

/-- C5 (amended) at a concrete input: a `$set` that does not touch `_id`
leaves the invariant intact. -/
theorem c5_id_invariant_witness :
    dbInvariant [("t", [⟨JsValue.vStr "a", [("_id", JsValue.vStr "a"), ("name", JsValue.vStr "y")]⟩])] := by
  have hInv : dbInvariant [("t", [⟨JsValue.vStr "a", [("_id", JsValue.vStr "a"), ("name", JsValue.vStr "x")]⟩])] := by
    intro t rows hmem r hr
    have hpair := List.mem_singleton.mp hmem
    injection hpair with h1 h2
    subst h2
    rw [List.mem_singleton.mp hr]
    rfl
  exact (c5_id_invariant_preserved _ hInv).2.2.1 "t" [("name", JsValue.vStr "x")]
    [("$set", JsValue.vObj [("name", JsValue.vStr "y")])]
    [("t", [⟨JsValue.vStr "a", [("_id", JsValue.vStr "a"), ("name", JsValue.vStr "y")]⟩])]
    ⟨true, 1⟩ (by decide) rfl

/-- C6: `find` soft-fails to the empty sequence exactly on the
missing-collection failure; on an existing collection a query with a
non-bindable value still fails hard with the engine's bind error (which the
catch block rethrows), and a fully bindable query succeeds. -/
theorem c6_find_soft_fail (db : Db) (n : String) (q : Doc) :
    (tableExists db n = false → find db n q = .ok []) ∧
    (tableExists db n = true →
      ((q.map (fun p => p.2)).all bindable = false → find db n q = .error .bindError) ∧
      ((q.map (fun p => p.2)).all bindable = true →
        find db n q = .ok ((((dbGet db n).getD []).filter (matchesEq q)).map findRowDoc))) := by
  cases hdb : dbGet db n with
  | none =>
      refine ⟨fun _ => ?_, fun hex => by simp [tableExists, hdb] at hex⟩
      unfold find findRaw
      rw [hdb]
      simp [noSuchTable_msg_includes]
  | some rows =>
      refine ⟨fun hex => by simp [tableExists, hdb] at hex,
              fun _ => ⟨fun hb => ?_, fun hb => ?_⟩⟩
      · unfold find findRaw
        rw [hdb]
        simp [hb, bindError_msg_not_noSuchTable]
      · unfold find findRaw
        rw [hdb]
        simp [hb]

/-- C6 at a concrete input: a missing collection yields the empty sequence
while a boolean-valued query on an existing collection fails at bind time. -/
theorem c6_find_soft_fail_witness :
    find ([] : Db) "missing" [("k", JsValue.vStr "v")] = .ok [] ∧
    find [("t", [⟨JsValue.vStr "a", [("_id", JsValue.vStr "a")]⟩])] "t"
      [("flag", JsValue.vBool true)] = .error .bindError :=
  ⟨(c6_find_soft_fail ([] : Db) "missing" [("k", JsValue.vStr "v")]).1 rfl,
   ((c6_find_soft_fail [("t", [⟨JsValue.vStr "a", [("_id", JsValue.vStr "a")]⟩])] "t"
      [("flag", JsValue.vBool true)]).2 rfl).1 rfl⟩

/-- C9: when a document carries a falsy `_id` (empty string, 0, false or
null), `insertOne` and `insertMany` discard it: the resolved identity is the
freshly generated UUID string, which differs from the supplied `_id`, and it
is what `insertOne` reports as `insertedId` and what `insertMany`'s loop
stores in the stamped row. -/
theorem c9_falsy_id_replaced (db : Db) (n : String) (doc : Doc) (gen : String)
    (v : JsValue) (hv : docGet doc "_id" = some v) (hf : truthy v = false)
    (hg : gen ≠ "") :
    resolveId doc gen = .vStr gen ∧
    JsValue.vStr gen ≠ v ∧
    (∀ db2 r, insertOne db n doc gen = .ok (db2, r) → r.insertedId = .vStr gen) ∧
    (∀ gens : Nat → String, gens 0 = gen →
      ∀ rows rows2, insertManyLoop n gens 0 [doc] rows = .ok rows2 →
        rows2 = rows ++ [⟨.vStr gen, objSet doc "_id" (.vStr gen)⟩]) := by
  have hres : resolveId doc gen = .vStr gen := by
    unfold resolveId
    rw [hv]
    simp [hf]
  refine ⟨hres, ?_, ?_, ?_⟩
  · cases v with
    | vStr s =>
        have hs : s = "" := by simpa [truthy] using hf
        subst hs
        exact fun hcon => hg (JsValue.vStr.inj hcon)
    | vNull => exact fun hcon => JsValue.noConfusion hcon
    | vBool b => exact fun hcon => JsValue.noConfusion hcon
    | vNum m => exact fun hcon => JsValue.noConfusion hcon
    | vArr xs => simp [truthy] at hf
    | vObj fs => simp [truthy] at hf
  · intro db2 r h
    unfold insertOne at h
    rw [hres] at h
    split at h
    · cases h
    · split at h
      · split at h
        · cases h
        · simp only [Except.ok.injEq, Prod.mk.injEq] at h
          obtain ⟨_, hr⟩ := h
          subst hr
          rfl
      · cases h
  · intro gens hg0 rows rows2 h
    rw [insertManyLoop_ok n gens [doc] 0 rows rows2 h]
    simp [stampedRows, hg0, hres]

/-- C9 at a concrete input: an explicit empty-string `_id` is discarded in
favour of the generated UUID. -/
theorem c9_falsy_id_replaced_witness :
    resolveId [("_id", JsValue.vStr "")] "u1" = .vStr "u1" ∧
    JsValue.vStr "u1" ≠ JsValue.vStr "" :=
  ⟨(c9_falsy_id_replaced ([] : Db) "t" [("_id", JsValue.vStr "")] "u1"
      (JsValue.vStr "") rfl rfl (by decide)).1,
   (c9_falsy_id_replaced ([] : Db) "t" [("_id", JsValue.vStr "")] "u1"
      (JsValue.vStr "") rfl rfl (by decide)).2.1⟩

end SqliteDocstore




